import Mathlib

/-!
Verification development for the CS330 scene-manager source
(`Source/SceneManager.cpp`).  The C++ class `SceneManager` keeps a
texture registry (a fixed array `m_textureIDs` together with a count
`m_loadedTextures`, modelled here as the list of its first
`m_loadedTextures` cells), a material registry (`m_objectMaterials`,
a vector), and a pointer to an external `ShaderManager` that receives
named uniform values.  We embed the state, the registry operations,
the transform composer and the shading helpers as Lean functions and
prove the specification claims about them.

Conventions of the embedding:
* OpenGL texture names produced by `glGenTextures` are modelled by a
  counter `nextHandle` (names handed out sequentially, starting at 1)
  together with the list `allocatedHandles` of names allocated so far;
  `glDeleteTextures` would remove from that list, and nothing in this
  source ever does.
* The shader sink (`ShaderManager`) is modelled as a map from uniform
  names to their current value; every `set...Value` call overwrites the
  named entry.  A null `m_pShaderManager` is modelled by the flag
  `hasShader = false`; the `shader` component then simply keeps its
  value, since the guarded operations skip the push.
* C++ floats are idealised as real numbers, and the trigonometry of
  `glm` is `Real.cos` / `Real.sin`.
* An uninitialised C++ local (such as `OBJECT_MATERIAL material;` in
  `SetShaderMaterial`) holds indeterminate field values; we model it by
  an explicit `junk` argument universally quantified in the theorems.
-/

open Real

/-- A 3-component float vector (`glm::vec3`). -/
structure Vec3 where
  x : ℝ
  y : ℝ
  z : ℝ

/-- A 4-component float vector (`glm::vec4`). -/
structure Vec4 where
  x : ℝ
  y : ℝ
  z : ℝ
  w : ℝ

/-- A 4x4 float matrix (`glm::mat4`), written in mathematical row/column
order: `mRC` is the entry in row `R`, column `C`.  (glm stores matrices
column-major; `m[c][r]` in glm is `mRC` here.) -/
structure Mat4 where
  m00 : ℝ
  m01 : ℝ
  m02 : ℝ
  m03 : ℝ
  m10 : ℝ
  m11 : ℝ
  m12 : ℝ
  m13 : ℝ
  m20 : ℝ
  m21 : ℝ
  m22 : ℝ
  m23 : ℝ
  m30 : ℝ
  m31 : ℝ
  m32 : ℝ
  m33 : ℝ

/-- Matrix product, row times column, as `operator*` on `glm::mat4`. -/
def Mat4.mul (A B : Mat4) : Mat4 where
  m00 := A.m00 * B.m00 + A.m01 * B.m10 + A.m02 * B.m20 + A.m03 * B.m30
  m01 := A.m00 * B.m01 + A.m01 * B.m11 + A.m02 * B.m21 + A.m03 * B.m31
  m02 := A.m00 * B.m02 + A.m01 * B.m12 + A.m02 * B.m22 + A.m03 * B.m32
  m03 := A.m00 * B.m03 + A.m01 * B.m13 + A.m02 * B.m23 + A.m03 * B.m33
  m10 := A.m10 * B.m00 + A.m11 * B.m10 + A.m12 * B.m20 + A.m13 * B.m30
  m11 := A.m10 * B.m01 + A.m11 * B.m11 + A.m12 * B.m21 + A.m13 * B.m31
  m12 := A.m10 * B.m02 + A.m11 * B.m12 + A.m12 * B.m22 + A.m13 * B.m32
  m13 := A.m10 * B.m03 + A.m11 * B.m13 + A.m12 * B.m23 + A.m13 * B.m33
  m20 := A.m20 * B.m00 + A.m21 * B.m10 + A.m22 * B.m20 + A.m23 * B.m30
  m21 := A.m20 * B.m01 + A.m21 * B.m11 + A.m22 * B.m21 + A.m23 * B.m31
  m22 := A.m20 * B.m02 + A.m21 * B.m12 + A.m22 * B.m22 + A.m23 * B.m32
  m23 := A.m20 * B.m03 + A.m21 * B.m13 + A.m22 * B.m23 + A.m23 * B.m33
  m30 := A.m30 * B.m00 + A.m31 * B.m10 + A.m32 * B.m20 + A.m33 * B.m30
  m31 := A.m30 * B.m01 + A.m31 * B.m11 + A.m32 * B.m21 + A.m33 * B.m31
  m32 := A.m30 * B.m02 + A.m31 * B.m12 + A.m32 * B.m22 + A.m33 * B.m32
  m33 := A.m30 * B.m03 + A.m31 * B.m13 + A.m32 * B.m23 + A.m33 * B.m33

instance : Mul Mat4 := ⟨Mat4.mul⟩

/-- Matrix-vector product (`glm::mat4 * glm::vec4`, column vectors). -/
def Mat4.mulVec (A : Mat4) (v : Vec4) : Vec4 where
  x := A.m00 * v.x + A.m01 * v.y + A.m02 * v.z + A.m03 * v.w
  y := A.m10 * v.x + A.m11 * v.y + A.m12 * v.z + A.m13 * v.w
  z := A.m20 * v.x + A.m21 * v.y + A.m22 * v.z + A.m23 * v.w
  w := A.m30 * v.x + A.m31 * v.y + A.m32 * v.z + A.m33 * v.w

/-- Degree-to-radian conversion, `glm::radians`. -/
noncomputable def radians (degrees : ℝ) : ℝ := degrees * (Real.pi / 180)

/-- Vector normalisation, `glm::normalize` (Lean's division by zero
makes the zero vector normalise to itself; `glm::rotate` is only ever
called on unit axes in this source). -/
noncomputable def glmNormalize (v : Vec3) : Vec3 :=
  let len := Real.sqrt (v.x * v.x + v.y * v.y + v.z * v.z)
  ⟨v.x / len, v.y / len, v.z / len⟩

/-- Axis-angle rotation matrix, `glm::rotate(angle, v)` from
`glm/gtx/transform.hpp` (which normalises the axis and builds
`c*I + s*K + (1-c)*(a a^T)` with `K` the cross-product matrix),
transcribed into row/column order. -/
noncomputable def glmRotate (angle : ℝ) (v : Vec3) : Mat4 :=
  let c := Real.cos angle
  let s := Real.sin angle
  let a := glmNormalize v
  { m00 := c + (1 - c) * a.x * a.x
    m01 := (1 - c) * a.x * a.y - s * a.z
    m02 := (1 - c) * a.x * a.z + s * a.y
    m03 := 0
    m10 := (1 - c) * a.y * a.x + s * a.z
    m11 := c + (1 - c) * a.y * a.y
    m12 := (1 - c) * a.y * a.z - s * a.x
    m13 := 0
    m20 := (1 - c) * a.z * a.x - s * a.y
    m21 := (1 - c) * a.z * a.y + s * a.x
    m22 := c + (1 - c) * a.z * a.z
    m23 := 0
    m30 := 0
    m31 := 0
    m32 := 0
    m33 := 1 }

/-- Scale matrix, `glm::scale(v)`. -/
def glmScale (v : Vec3) : Mat4 where
  m00 := v.x
  m01 := 0
  m02 := 0
  m03 := 0
  m10 := 0
  m11 := v.y
  m12 := 0
  m13 := 0
  m20 := 0
  m21 := 0
  m22 := v.z
  m23 := 0
  m30 := 0
  m31 := 0
  m32 := 0
  m33 := 1

/-- Translation matrix, `glm::translate(v)`. -/
def glmTranslate (v : Vec3) : Mat4 where
  m00 := 1
  m01 := 0
  m02 := 0
  m03 := v.x
  m10 := 0
  m11 := 1
  m12 := 0
  m13 := v.y
  m20 := 0
  m21 := 0
  m22 := 1
  m23 := v.z
  m30 := 0
  m31 := 0
  m32 := 0
  m33 := 1

/-- A value pushed to the shader sink by one of the `ShaderManager`
`set...Value` methods.  `setIntValue(name, false)` in C++ converts the
bool to the int `0` (and `true` to `1`); the conversion is made at the
call sites below. -/
inductive UniformValue where
  | boolV (b : Bool)
  | intV (i : ℤ)
  | floatV (r : ℝ)
  | vec2V (u v : ℝ)
  | vec3V (v : Vec3)
  | vec4V (v : Vec4)
  | mat4V (m : Mat4)
  | sampler2DV (slot : ℤ)

/-- The uniform state held by the external `ShaderManager`: each named
uniform either has a current value or was never set. -/
def ShaderUniforms : Type := String → Option UniformValue

/-- Overwrite one named uniform; every `ShaderManager::set...Value`
method is this update at its particular name. -/
def setUniform (u : ShaderUniforms) (uniformName : String) (v : UniformValue) :
    ShaderUniforms :=
  fun n => if n = uniformName then some v else u n

/-- One cell of the texture registry `m_textureIDs`: an OpenGL texture
name `ID` (GLuint) and the lookup `tag`. -/
structure TextureEntry where
  ID : ℕ
  tag : String

/-- The material record `OBJECT_MATERIAL` (declared in `SceneManager.h`,
whose fields are fully determined by their uses in `SceneManager.cpp`:
`ambientColor`, `ambientStrength`, `diffuseColor`, `specularColor`,
`shininess`, `tag`). -/
structure ObjectMaterial where
  ambientColor : Vec3
  ambientStrength : ℝ
  diffuseColor : Vec3
  specularColor : Vec3
  shininess : ℝ
  tag : String

/-- The result of a successful `stbi_load`: width, height and channel
count (`int`s in C). -/
structure ImageData where
  width : ℤ
  height : ℤ
  channels : ℤ

/-- The state of a `SceneManager` object together with the modelled
slice of the OpenGL process state it mutates.
`hasShader` is `m_pShaderManager != NULL`; `shader` is the uniform
state of the pointee (untouched whenever the null check fails);
`textureIDs` is the used prefix of the array `m_textureIDs`, so
`m_loadedTextures = textureIDs.length`; `nextHandle` and
`allocatedHandles` model `glGenTextures` name allocation; `boundUnits`
models the texture-unit bindings made by `BindGLTextures`. -/
structure SceneState where
  hasShader : Bool
  shader : ShaderUniforms
  textureIDs : List TextureEntry
  objectMaterials : List ObjectMaterial
  nextHandle : ℕ
  allocatedHandles : List ℕ
  boundUnits : List (ℕ × ℕ)

/-- A fresh scene state: empty registries, no uniform ever set, no GL
name allocated yet (GL hands out names from 1). -/
def initialSceneState (hasShader : Bool) : SceneState where
  hasShader := hasShader
  shader := fun _ => none
  textureIDs := []
  objectMaterials := []
  nextHandle := 1
  allocatedHandles := []
  boundUnits := []

/-- The count `m_loadedTextures` (the registry model keeps exactly the
used prefix of `m_textureIDs`). -/
def loadedTextures (s : SceneState) : ℕ := s.textureIDs.length

/-- Model of `glGenTextures(1, &id)`: hand out the next sequential GL
texture name and record it as allocated. -/
def glGenTexture (s : SceneState) : ℕ × SceneState :=
  (s.nextHandle,
    { s with
      nextHandle := s.nextHandle + 1
      allocatedHandles := s.allocatedHandles ++ [s.nextHandle] })

/-- The method `SceneManager::CreateGLTexture(filename, tag)`.  The
image decoder (`stbi_load`) is the external collaborator `decode`.  On
decode failure the method returns `false` with nothing changed.  On
success it first calls `glGenTextures` (so a GL name is consumed even
if the channel check then fails), uploads the image when the channel
count is 3 (RGB) or 4 (RGBA) and appends a registry entry, and for any
other channel count returns `false` without touching the registry. -/
def createGLTexture (decode : String → Option ImageData)
    (filename tag : String) (s : SceneState) : Bool × SceneState :=
  match decode filename with
  | none => (false, s)
  | some image =>
    let g := glGenTexture s
    if image.channels = 3 ∨ image.channels = 4 then
      (true,
        { g.2 with textureIDs := g.2.textureIDs ++ [⟨g.1, tag⟩] })
    else
      (false, g.2)

/-- The method `SceneManager::BindGLTextures()`: texture unit `i` gets
the texture name of registry cell `i`, for `i < m_loadedTextures`. -/
def bindGLTextures (s : SceneState) : SceneState :=
  { s with
    boundUnits :=
      (List.range s.textureIDs.length).map
        (fun i => (i, (s.textureIDs.getD i ⟨0, ""⟩).ID)) }

/-- The loop body of `SceneManager::DestroyGLTextures()` over the used
registry cells: each iteration executes
`glGenTextures(1, &m_textureIDs[i].ID)`, i.e. stores a freshly
generated GL name into the cell.  Arguments: remaining cells, current
`nextHandle`, allocated names so far; result: rewritten cells, final
`nextHandle`, final allocated names. -/
def destroyGLTexturesAux :
    List TextureEntry → ℕ → List ℕ → List TextureEntry × ℕ × List ℕ
  | [], n, alloc => ([], n, alloc)
  | e :: rest, n, alloc =>
    let r := destroyGLTexturesAux rest (n + 1) (alloc ++ [n])
    ({ e with ID := n } :: r.1, r.2)

/-- The method `SceneManager::DestroyGLTextures()`: for every used cell
it calls `glGenTextures` on the cell's `ID` field (it never calls
`glDeleteTextures`, so no previously allocated name is released, and
`m_loadedTextures` is not changed). -/
def destroyGLTextures (s : SceneState) : SceneState :=
  let r := destroyGLTexturesAux s.textureIDs s.nextHandle s.allocatedHandles
  { s with
    textureIDs := r.1
    nextHandle := r.2.1
    allocatedHandles := r.2.2 }

/-- The scan loop of `SceneManager::FindTextureID(tag)`: walk the used
cells front to back, stop at the first tag match and return its `ID`
(as the C++ `int` return), else fall through to the initial `-1`. -/
def findTextureIDAux : List TextureEntry → String → ℤ
  | [], _ => -1
  | e :: rest, tag => if e.tag = tag then (e.ID : ℤ) else findTextureIDAux rest tag

/-- The method `SceneManager::FindTextureID(tag)` on a registry. -/
def findTextureID (entries : List TextureEntry) (tag : String) : ℤ :=
  findTextureIDAux entries tag

/-- The scan loop of `SceneManager::FindTextureSlot(tag)`: identical
walk, but the first match returns the cell index (the slot). -/
def findTextureSlotAux : List TextureEntry → String → ℤ → ℤ
  | [], _, _ => -1
  | e :: rest, tag, index =>
    if e.tag = tag then index else findTextureSlotAux rest tag (index + 1)

/-- The method `SceneManager::FindTextureSlot(tag)` on a registry. -/
def findTextureSlot (entries : List TextureEntry) (tag : String) : ℤ :=
  findTextureSlotAux entries tag 0

/-- The scan loop of `SceneManager::FindMaterial(tag, material&)`: at
the first tag match the five attribute fields (not the tag) are copied
into the out-parameter and the flag becomes true; otherwise the
out-parameter is left as it was. -/
def findMaterialLoop :
    List ObjectMaterial → String → ObjectMaterial → Bool × ObjectMaterial
  | [], _, material => (false, material)
  | m :: rest, tag, material =>
    if m.tag = tag then
      (true,
        { material with
          ambientColor := m.ambientColor
          ambientStrength := m.ambientStrength
          diffuseColor := m.diffuseColor
          specularColor := m.specularColor
          shininess := m.shininess })
    else
      findMaterialLoop rest tag material

/-- The method `SceneManager::FindMaterial(tag, material&)`: returns
false immediately on an empty registry; otherwise runs the scan loop
and then executes `return(true)` - the loop's found flag is discarded,
so a nonempty registry always reports `true`, found or not. -/
def findMaterial (materials : List ObjectMaterial) (tag : String)
    (material : ObjectMaterial) : Bool × ObjectMaterial :=
  if materials.length = 0 then
    (false, material)
  else
    (true, (findMaterialLoop materials tag material).2)

/-- The method `SceneManager::SetTransformations(scaleXYZ, XrotationDegrees,
YrotationDegrees, ZrotationDegrees, positionXYZ)`: build the five factor
matrices (angles converted by `glm::radians`), compose
`modelView = translation * rotationX * rotationY * rotationZ * scale`,
and, when the shader pointer is non-null, push the result under the
uniform name `g_ModelName = "model"`.  The C++ method returns `void`;
here the updated state is the whole result. -/
noncomputable def setTransformations (scaleXYZ : Vec3)
    (XrotationDegrees YrotationDegrees ZrotationDegrees : ℝ)
    (positionXYZ : Vec3) (s : SceneState) : SceneState :=
  let scale := glmScale scaleXYZ
  let rotationX := glmRotate (radians XrotationDegrees) ⟨1, 0, 0⟩
  let rotationY := glmRotate (radians YrotationDegrees) ⟨0, 1, 0⟩
  let rotationZ := glmRotate (radians ZrotationDegrees) ⟨0, 0, 1⟩
  let translation := glmTranslate positionXYZ
  let modelView := translation * rotationX * rotationY * rotationZ * scale
  if s.hasShader then
    { s with shader := setUniform s.shader "model" (UniformValue.mat4V modelView) }
  else
    s

/-- The method `SceneManager::SetShaderColor(r, g, b, a)`: when the
shader pointer is non-null, push `bUseTexture := (int) false = 0` and
then `objectColor := (r,g,b,a)`. -/
def setShaderColor (redColorValue greenColorValue blueColorValue alphaValue : ℝ)
    (s : SceneState) : SceneState :=
  if s.hasShader then
    { s with
      shader :=
        setUniform
          (setUniform s.shader "bUseTexture" (UniformValue.intV 0))
          "objectColor"
          (UniformValue.vec4V
            ⟨redColorValue, greenColorValue, blueColorValue, alphaValue⟩) }
  else
    s

/-- The method `SceneManager::SetShaderTexture(textureTag)`: when the
shader pointer is non-null, push `bUseTexture := (int) true = 1`, look
the tag up with `FindTextureSlot` (yielding `-1` on a miss), and push
the result as the sampler uniform `objectTexture`. -/
def setShaderTexture (textureTag : String) (s : SceneState) : SceneState :=
  if s.hasShader then
    { s with
      shader :=
        setUniform
          (setUniform s.shader "bUseTexture" (UniformValue.intV 1))
          "objectTexture"
          (UniformValue.sampler2DV (findTextureSlot s.textureIDs textureTag)) }
  else
    s

/-- The method `SceneManager::SetTextureUVScale(u, v)`: when the shader
pointer is non-null, push `UVscale := (u, v)`. -/
def setTextureUVScale (u v : ℝ) (s : SceneState) : SceneState :=
  if s.hasShader then
    { s with shader := setUniform s.shader "UVscale" (UniformValue.vec2V u v) }
  else
    s

/-- The method `SceneManager::SetShaderMaterial(materialTag)`: when the
material registry is nonempty, declare the local
`OBJECT_MATERIAL material;` (uninitialised - its indeterminate initial
contents are the explicit argument `junk`), call `FindMaterial`, and on
a `true` result push the five material uniforms from the out-parameter.
This method performs no null check on the shader pointer (the C++
dereferences `m_pShaderManager` unconditionally), so the pushes are not
guarded by `hasShader` here. -/
def setShaderMaterial (junk : ObjectMaterial) (materialTag : String)
    (s : SceneState) : SceneState :=
  if s.objectMaterials.length > 0 then
    let r := findMaterial s.objectMaterials materialTag junk
    if r.1 then
      { s with
        shader :=
          setUniform
            (setUniform
              (setUniform
                (setUniform
                  (setUniform s.shader "material.ambientColor"
                    (UniformValue.vec3V r.2.ambientColor))
                  "material.ambientStrength" (UniformValue.floatV r.2.ambientStrength))
                "material.diffuseColor" (UniformValue.vec3V r.2.diffuseColor))
              "material.specularColor" (UniformValue.vec3V r.2.specularColor))
            "material.shininess" (UniformValue.floatV r.2.shininess) }
    else
      s
  else
    s

/-- Run a sequence of `CreateGLTexture` calls, discarding each boolean
result, exactly as `LoadSceneTextures` does with its dead `bReturn`
variable. -/
def runLoads (decode : String → Option ImageData) :
    List (String × String) → SceneState → SceneState
  | [], s => s
  | (filename, tag) :: rest, s =>
    runLoads decode rest (createGLTexture decode filename tag s).2

/-- The fixed (filename, tag) sequence of the fifteen `CreateGLTexture`
calls in `SceneManager::LoadSceneTextures()`, in source order.  Note
that the pair `("textures/granite_texture.jpg", "island top")` occurs
twice (calls 1 and 6). -/
def sceneTextureRequests : List (String × String) :=
  [("textures/granite_texture.jpg", "island top"),
   ("textures/plaster_texture.jpg", "island stand"),
   ("textures/wicker_light_texture.jpg", "stand base"),
   ("textures/light_wood_texture.jpg", "top torus"),
   ("textures/bamboo_texture.jpg", "torus"),
   ("textures/granite_texture.jpg", "island top"),
   ("textures/wood_shiny_texture.jpg", "bottom torus"),
   ("textures/wood_floor_texture.jpg", "floor"),
   ("textures/matte_black_metal.jpg", "candle snuffer"),
   ("textures/ceramic_texture.jpg", "pottery"),
   ("textures/leather_texture1.jpg", "fruit"),
   ("textures/paper_texture2.jpg", "paper"),
   ("textures/wax_texture.jpg", "wax"),
   ("textures/dark_wood_texture1.jpg", "dark wood"),
   ("textures/stainless.jpg", "steel")]

/-- The method `SceneManager::LoadSceneTextures()`: the fifteen
`CreateGLTexture` calls in order, then `BindGLTextures()`. -/
def loadSceneTextures (decode : String → Option ImageData)
    (s : SceneState) : SceneState :=
  bindGLTextures (runLoads decode sceneTextureRequests s)

/-- The condition under which one `CreateGLTexture` call succeeds
(registers an entry): the image decodes and has 3 or 4 channels. -/
def loadSucceeds (decode : String → Option ImageData) (filename : String) : Bool :=
  match decode filename with
  | none => false
  | some image => image.channels = 3 ∨ image.channels = 4

/-- The tags registered by a request sequence, in registration order:
the tags of exactly the successful loads. -/
def successTags (decode : String → Option ImageData)
    (reqs : List (String × String)) : List String :=
  (reqs.filter (fun r => loadSucceeds decode r.1)).map (fun r => r.2)

/-- The method `SceneManager::DefineObjectMaterials()`: seven local
`OBJECT_MATERIAL` records are built and pushed in order.  Each local
starts uninitialised (modelled by the `junk` argument); every field of
every record is then assigned - except that during the ceramic
definition the source line 495 reads `glassMaterial.shininess = 25.0;`
(mutating the already-pushed-by-copy glass local) instead of
`ceramicMaterial.shininess = ...`, so the ceramic record's `shininess`
is never assigned and keeps its indeterminate initial value. -/
def defineObjectMaterials (junk : ObjectMaterial) (s : SceneState) : SceneState :=
  let metalMaterial : ObjectMaterial :=
    { junk with
      ambientColor := ⟨0.3, 0.3, 0.3⟩
      ambientStrength := 0.5
      diffuseColor := ⟨0.25, 0.25, 0.25⟩
      specularColor := ⟨0.4, 0.4, 0.4⟩
      shininess := 30
      tag := "metal" }
  let woodMaterial : ObjectMaterial :=
    { junk with
      ambientColor := ⟨0.20, 0.20, 0.20⟩
      ambientStrength := 0.25
      diffuseColor := ⟨0.4, 0.4, 0.4⟩
      specularColor := ⟨0.15, 0.15, 0.15⟩
      shininess := 0.3
      tag := "wood" }
  let glassMaterial : ObjectMaterial :=
    { junk with
      ambientColor := ⟨0.4, 0.4, 0.4⟩
      ambientStrength := 0.3
      diffuseColor := ⟨0.3, 0.3, 0.3⟩
      specularColor := ⟨0.6, 0.6, 0.6⟩
      shininess := 85
      tag := "glass" }
  let ceramicMaterial : ObjectMaterial :=
    { junk with
      ambientColor := ⟨0.6, 0.6, 0.6⟩
      ambientStrength := 0.25
      diffuseColor := ⟨0.86, 0.82, 0.78⟩
      specularColor := ⟨0.0, 0.0, 0.0⟩
      tag := "ceramic" }
  let glassMaterialAfterSlip : ObjectMaterial :=
    { glassMaterial with shininess := 25 }
  let wallingMaterial : ObjectMaterial :=
    { junk with
      ambientColor := ⟨0.45, 0.45, 0.45⟩
      ambientStrength := 0.7
      diffuseColor := ⟨0.4, 0.5, 0.35⟩
      specularColor := ⟨0.1, 0.1, 0.1⟩
      shininess := 0
      tag := "walling" }
  let leatherMaterial : ObjectMaterial :=
    { junk with
      ambientColor := ⟨0.56, 0.45, 0.113⟩
      ambientStrength := 0.2
      diffuseColor := ⟨0.76, 0.64, 0.2⟩
      specularColor := ⟨0.76, 0.64, 0.2⟩
      shininess := 0
      tag := "leather" }
  let paperMaterial : ObjectMaterial :=
    { junk with
      ambientColor := ⟨0.49, 0.41, 0.28⟩
      ambientStrength := 0.2
      diffuseColor := ⟨0.69, 0.63, 0.53⟩
      specularColor := ⟨0.85, 0.8, 0.69⟩
      shininess := 0.5
      tag := "parchment" }
  -- the mutated glass local is dead after line 495; `push_back` copied
  -- the original record at line 487, so the registry keeps shininess 85
  let _ := glassMaterialAfterSlip
  { s with
    objectMaterials :=
      s.objectMaterials ++
        [metalMaterial, woodMaterial, glassMaterial, ceramicMaterial,
         wallingMaterial, leatherMaterial, paperMaterial] }

/-- Modelled from the spec's words, for comparison with the source (C1):
the model matrix that, applied to a point, scales first, then rotates
about X, then about Y, then about Z, then translates - that is,
`Translation * RotationZ * RotationY * RotationX * Scale`. -/
noncomputable def claimedModelMatrix (scaleXYZ : Vec3)
    (XrotationDegrees YrotationDegrees ZrotationDegrees : ℝ)
    (positionXYZ : Vec3) : Mat4 :=
  glmTranslate positionXYZ *
    glmRotate (radians ZrotationDegrees) ⟨0, 0, 1⟩ *
    glmRotate (radians YrotationDegrees) ⟨0, 1, 0⟩ *
    glmRotate (radians XrotationDegrees) ⟨1, 0, 0⟩ *
    glmScale scaleXYZ

/-! ### Helper lemmas -/

/-- Unfold `*` on `Mat4` to its definition. -/
theorem Mat4.mul_def (A B : Mat4) : A * B = A.mul B := rfl

/-- Matrix-vector application distributes over the matrix product: the
right factor acts on the point first. -/
theorem Mat4.mul_mulVec (A B : Mat4) (v : Vec4) :
    (A * B).mulVec v = A.mulVec (B.mulVec v) := by
  cases A
  cases B
  cases v
  simp only [Mat4.mul_def, Mat4.mul, Mat4.mulVec, Vec4.mk.injEq]
  refine ⟨by ring, by ring, by ring, by ring⟩

/-- Position of the first occurrence of `tag` in a tag list, if any:
the characterisation of the first-match scan loops. -/
def firstTagIdx : List String → String → Option ℕ
  | [], _ => none
  | t :: rest, tag =>
    if t = tag then some 0 else (firstTagIdx rest tag).map (fun k => k + 1)

theorem firstTagIdx_none_iff (l : List String) (tag : String) :
    firstTagIdx l tag = none ↔ tag ∉ l := by
  induction l with
  | nil => simp [firstTagIdx]
  | cons t rest ih =>
    by_cases h : t = tag
    · simp [firstTagIdx, h]
    · simp [firstTagIdx, h, ih, Ne.symm h]

theorem firstTagIdx_append (l₁ l₂ : List String) (tag : String)
    (h : tag ∉ l₁) : firstTagIdx (l₁ ++ tag :: l₂) tag = some l₁.length := by
  induction l₁ with
  | nil => simp [firstTagIdx]
  | cons a rest ih =>
    have ha : a ≠ tag := fun hc => h (hc ▸ List.mem_cons_self a rest)
    have hr : tag ∉ rest := fun hc => h (List.mem_cons_of_mem a hc)
    simp [firstTagIdx, ha, ih hr]

theorem firstTagIdx_lt (l : List String) (tag : String) (k : ℕ)
    (h : firstTagIdx l tag = some k) : k < l.length := by
  induction l generalizing k with
  | nil => simp [firstTagIdx] at h
  | cons t rest ih =>
    by_cases ht : t = tag
    · simp [firstTagIdx, ht] at h
      simp only [List.length_cons]
      omega
    · simp [firstTagIdx, ht] at h
      obtain ⟨k', hk', rfl⟩ := h
      have := ih k' hk'
      simp only [List.length_cons]
      omega

/-- The `FindTextureSlot` loop returns the accumulator plus the
first-match position, or `-1` when the tag is absent. -/
theorem findTextureSlotAux_firstTagIdx (entries : List TextureEntry)
    (tag : String) : ∀ i : ℤ,
    findTextureSlotAux entries tag i =
      (match firstTagIdx (entries.map TextureEntry.tag) tag with
       | none => -1
       | some k => i + (k : ℤ)) := by
  induction entries with
  | nil => intro i; simp [findTextureSlotAux, firstTagIdx]
  | cons e rest ih =>
    intro i
    by_cases h : e.tag = tag
    · simp [findTextureSlotAux, firstTagIdx, h]
    · simp only [findTextureSlotAux, List.map_cons, firstTagIdx, h,
        if_false, if_neg h, ih (i + 1)]
      cases hf : firstTagIdx (rest.map TextureEntry.tag) tag with
      | none => simp
      | some k => simp only [Option.map_some']; push_cast; ring

/-- The `FindTextureID` loop returns the `ID` at the first-match
position, or `-1` when the tag is absent. -/
theorem findTextureIDAux_firstTagIdx (entries : List TextureEntry)
    (tag : String) :
    findTextureIDAux entries tag =
      (match firstTagIdx (entries.map TextureEntry.tag) tag with
       | none => -1
       | some k => ((entries.getD k ⟨0, ""⟩).ID : ℤ)) := by
  induction entries with
  | nil => simp [findTextureIDAux, firstTagIdx]
  | cons e rest ih =>
    by_cases h : e.tag = tag
    · simp [findTextureIDAux, firstTagIdx, h]
    · simp only [findTextureIDAux, List.map_cons, firstTagIdx, h,
        if_neg h, ih]
      cases hf : firstTagIdx (rest.map TextureEntry.tag) tag with
      | none => simp
      | some k => simp

/-- The `FindMaterial` loop leaves the out-parameter untouched when the
tag is absent from the registry. -/
theorem findMaterialLoop_notMem (materials : List ObjectMaterial)
    (tag : String) (junk : ObjectMaterial)
    (h : tag ∉ materials.map ObjectMaterial.tag) :
    findMaterialLoop materials tag junk = (false, junk) := by
  induction materials with
  | nil => simp [findMaterialLoop]
  | cons m rest ih =>
    simp only [List.map_cons, List.mem_cons] at h
    push_neg at h
    simp [findMaterialLoop, Ne.symm h.1, ih h.2]

/-- Tag bookkeeping of a whole load sequence: the registry's tag list
grows by exactly the tags of the successful loads, in order. -/
theorem runLoads_map_tag (decode : String → Option ImageData) :
    ∀ (reqs : List (String × String)) (s : SceneState),
    (runLoads decode reqs s).textureIDs.map TextureEntry.tag =
      s.textureIDs.map TextureEntry.tag ++ successTags decode reqs := by
  intro reqs
  induction reqs with
  | nil => intro s; simp [runLoads, successTags]
  | cons r rest ih =>
    intro s
    obtain ⟨f, t⟩ := r
    cases hd : decode f with
    | none =>
      have hs : loadSucceeds decode f = false := by simp [loadSucceeds, hd]
      simp [runLoads, createGLTexture, hd, ih, successTags, List.filter_cons, hs]
    | some image =>
      by_cases hc : image.channels = 3 ∨ image.channels = 4
      · have hs : loadSucceeds decode f = true := by
          simp [loadSucceeds, hd]
          exact_mod_cast hc
        simp [runLoads, createGLTexture, hd, hc, ih, successTags,
          List.filter_cons, hs, glGenTexture]
      · have hs : loadSucceeds decode f = false := by
          simp [loadSucceeds, hd]
          push_neg at hc
          exact_mod_cast hc
        simp [runLoads, createGLTexture, hd, hc, ih, successTags,
          List.filter_cons, hs, glGenTexture]

/-- The rewriting that `DestroyGLTextures` performs on the used cells:
cell `i` receives the freshly generated name `n + i`. -/
def regenerateEntries : List TextureEntry → ℕ → List TextureEntry
  | [], _ => []
  | e :: rest, n => { e with ID := n } :: regenerateEntries rest (n + 1)

theorem regenerateEntries_length (entries : List TextureEntry) :
    ∀ n, (regenerateEntries entries n).length = entries.length := by
  induction entries with
  | nil => intro n; simp [regenerateEntries]
  | cons e rest ih => intro n; simp [regenerateEntries, ih]

theorem regenerateEntries_getD (entries : List TextureEntry) :
    ∀ (n i : ℕ), i < entries.length →
    (regenerateEntries entries n).getD i ⟨0, ""⟩ =
      { entries.getD i ⟨0, ""⟩ with ID := n + i } := by
  induction entries with
  | nil => intro n i h; simp at h
  | cons e rest ih =>
    intro n i h
    cases i with
    | zero => simp [regenerateEntries]
    | succ j =>
      simp only [List.length_cons] at h
      have := ih (n + 1) j (by omega)
      simp only [regenerateEntries, List.getD_cons_succ, this]
      have : n + 1 + j = n + (j + 1) := by omega
      rw [this]

/-- Closed form of the `DestroyGLTextures` loop. -/
theorem destroyGLTexturesAux_eq (entries : List TextureEntry) :
    ∀ (n : ℕ) (alloc : List ℕ),
    destroyGLTexturesAux entries n alloc =
      (regenerateEntries entries n, n + entries.length,
        alloc ++ List.range' n entries.length) := by
  induction entries with
  | nil => intro n alloc; simp [destroyGLTexturesAux, regenerateEntries]
  | cons e rest ih =>
    intro n alloc
    simp only [destroyGLTexturesAux, ih, regenerateEntries, List.length_cons,
      List.range'_succ, Prod.mk.injEq]
    refine ⟨trivial, by omega, ?_⟩
    simp

theorem radians_90 : radians 90 = Real.pi / 2 := by
  unfold radians
  ring

theorem radians_zero : radians 0 = 0 := by
  unfold radians
  ring

/-- Rotation about the unit X axis is the standard X rotation matrix. -/
theorem glmRotate_unitX (θ : ℝ) :
    glmRotate θ ⟨1, 0, 0⟩ =
      ⟨1, 0, 0, 0,
       0, Real.cos θ, -Real.sin θ, 0,
       0, Real.sin θ, Real.cos θ, 0,
       0, 0, 0, 1⟩ := by
  have h : Real.sqrt ((1 : ℝ) * 1 + 0 * 0 + 0 * 0) = 1 := by
    rw [show ((1 : ℝ) * 1 + 0 * 0 + 0 * 0) = 1 by ring, Real.sqrt_one]
  simp only [glmRotate, glmNormalize, h, Mat4.mk.injEq]
  norm_num

/-- Rotation about the unit Y axis is the standard Y rotation matrix. -/
theorem glmRotate_unitY (θ : ℝ) :
    glmRotate θ ⟨0, 1, 0⟩ =
      ⟨Real.cos θ, 0, Real.sin θ, 0,
       0, 1, 0, 0,
       -Real.sin θ, 0, Real.cos θ, 0,
       0, 0, 0, 1⟩ := by
  have h : Real.sqrt ((0 : ℝ) * 0 + 1 * 1 + 0 * 0) = 1 := by
    rw [show ((0 : ℝ) * 0 + 1 * 1 + 0 * 0) = 1 by ring, Real.sqrt_one]
  simp only [glmRotate, glmNormalize, h, Mat4.mk.injEq]
  norm_num

/-- Rotation about the unit Z axis is the standard Z rotation matrix. -/
theorem glmRotate_unitZ (θ : ℝ) :
    glmRotate θ ⟨0, 0, 1⟩ =
      ⟨Real.cos θ, -Real.sin θ, 0, 0,
       Real.sin θ, Real.cos θ, 0, 0,
       0, 0, 1, 0,
       0, 0, 0, 1⟩ := by
  have h : Real.sqrt ((0 : ℝ) * 0 + 0 * 0 + 1 * 1) = 1 := by
    rw [show ((0 : ℝ) * 0 + 0 * 0 + 1 * 1) = 1 by ring, Real.sqrt_one]
  simp only [glmRotate, glmNormalize, h, Mat4.mk.injEq]
  norm_num

/-! ### Claim theorems -/

/-- C9: if the shader pointer held by the `SceneManager` is null, then
`SetTransformations`, `SetShaderColor`, `SetShaderTexture` and
`SetTextureUVScale` each push no uniform values and return normally
(the state, shader uniforms included, is unchanged), for every
argument value. -/
theorem claimC9_null_shader_no_push (scaleXYZ : Vec3)
    (xDeg yDeg zDeg r g b a u v : ℝ) (positionXYZ : Vec3) (tag : String)
    (s : SceneState) (h : s.hasShader = false) :
    setTransformations scaleXYZ xDeg yDeg zDeg positionXYZ s = s ∧
    setShaderColor r g b a s = s ∧
    setShaderTexture tag s = s ∧
    setTextureUVScale u v s = s := by
  refine ⟨?_, ?_, ?_, ?_⟩ <;>
    simp [setTransformations, setShaderColor, setShaderTexture,
      setTextureUVScale, h]

/-- Witness for C9 at a concrete null-shader state. -/
theorem claimC9_witness :
    setTransformations ⟨1, 2, 3⟩ 10 20 30 ⟨4, 5, 6⟩ (initialSceneState false) =
      initialSceneState false ∧
    setShaderColor 1 0 0 1 (initialSceneState false) = initialSceneState false ∧
    setShaderTexture "floor" (initialSceneState false) = initialSceneState false ∧
    setTextureUVScale 2 2 (initialSceneState false) = initialSceneState false :=
  claimC9_null_shader_no_push ⟨1, 2, 3⟩ 10 20 30 1 0 0 1 2 2 ⟨4, 5, 6⟩ "floor"
    (initialSceneState false) rfl

/-- C5: `SetShaderColor` sets the shared texture-use uniform
`bUseTexture` to the false value `0` (and sets the flat color
`objectColor`), `SetShaderTexture` sets it to the true value `1` (and
sets the sampler slot `objectTexture`), and whichever of the two is
called last before a draw determines the flag the shader sees for that
draw. -/
theorem claimC5_last_call_wins (r g b a : ℝ) (tag : String) (s : SceneState)
    (h : s.hasShader = true) :
    ((setShaderColor r g b a s).shader "bUseTexture" =
        some (UniformValue.intV 0) ∧
      (setShaderColor r g b a s).shader "objectColor" =
        some (UniformValue.vec4V ⟨r, g, b, a⟩)) ∧
    ((setShaderTexture tag s).shader "bUseTexture" =
        some (UniformValue.intV 1) ∧
      (setShaderTexture tag s).shader "objectTexture" =
        some (UniformValue.sampler2DV (findTextureSlot s.textureIDs tag))) ∧
    (setShaderColor r g b a (setShaderTexture tag s)).shader "bUseTexture" =
      some (UniformValue.intV 0) ∧
    (setShaderTexture tag (setShaderColor r g b a s)).shader "bUseTexture" =
      some (UniformValue.intV 1) := by
  refine ⟨⟨?_, ?_⟩, ⟨?_, ?_⟩, ?_, ?_⟩ <;>
    simp [setShaderColor, setShaderTexture, setUniform, h]

/-- Witness for C5 at a concrete state with a shader attached. -/
theorem claimC5_witness :
    (setShaderColor 1 0 0 1 (initialSceneState true)).shader "bUseTexture" =
      some (UniformValue.intV 0) ∧
    (setShaderTexture "floor" (initialSceneState true)).shader "bUseTexture" =
      some (UniformValue.intV 1) ∧
    (setShaderColor 1 0 0 1
        (setShaderTexture "floor" (initialSceneState true))).shader
      "bUseTexture" = some (UniformValue.intV 0) ∧
    (setShaderTexture "floor"
        (setShaderColor 1 0 0 1 (initialSceneState true))).shader
      "bUseTexture" = some (UniformValue.intV 1) :=
  ⟨(claimC5_last_call_wins 1 0 0 1 "floor" (initialSceneState true) rfl).1.1,
   (claimC5_last_call_wins 1 0 0 1 "floor" (initialSceneState true) rfl).2.1.1,
   (claimC5_last_call_wins 1 0 0 1 "floor" (initialSceneState true) rfl).2.2.1,
   (claimC5_last_call_wins 1 0 0 1 "floor" (initialSceneState true) rfl).2.2.2⟩

/-- C4: for every file path and tag, if the image cannot be decoded or
its channel count is neither 3 nor 4, `CreateGLTexture` returns
failure and the texture registry is left unmodified - no entry is
appended and the loaded-texture count is not incremented. -/
theorem claimC4_load_failure_leaves_registry
    (decode : String → Option ImageData) (filename tag : String)
    (s : SceneState)
    (h : decode filename = none ∨
      ∃ image, decode filename = some image ∧
        image.channels ≠ 3 ∧ image.channels ≠ 4) :
    (createGLTexture decode filename tag s).1 = false ∧
    (createGLTexture decode filename tag s).2.textureIDs = s.textureIDs ∧
    loadedTextures (createGLTexture decode filename tag s).2 =
      loadedTextures s := by
  rcases h with h | ⟨image, h, h3, h4⟩
  · simp [createGLTexture, h, loadedTextures]
  · simp [createGLTexture, h, h3, h4, glGenTexture, loadedTextures]

/-- Witness for C4: a 2-channel image is rejected and registers
nothing. -/
theorem claimC4_witness :
    (createGLTexture (fun _ => some ⟨8, 8, 2⟩) "textures/gray.jpg" "gray"
        (initialSceneState true)).1 = false ∧
    (createGLTexture (fun _ => some ⟨8, 8, 2⟩) "textures/gray.jpg" "gray"
        (initialSceneState true)).2.textureIDs = [] ∧
    loadedTextures
        (createGLTexture (fun _ => some ⟨8, 8, 2⟩) "textures/gray.jpg" "gray"
          (initialSceneState true)).2 = 0 :=
  claimC4_load_failure_leaves_registry (fun _ => some ⟨8, 8, 2⟩)
    "textures/gray.jpg" "gray" (initialSceneState true)
    (Or.inr ⟨⟨8, 8, 2⟩, rfl, by decide, by decide⟩)

/-- C8: in `DefineObjectMaterials`, the shininess assignment written
during the ceramic material's definition targets the glass material
record, so the ceramic entry appended to the registry keeps the
indeterminate initial value of its `shininess` field (it equals
whatever garbage `junk.shininess` the uninitialised local held), while
the registered glass entry retains the `85.0` it was given in its own
definition before being pushed. -/
theorem claimC8_ceramic_shininess_slip (junk : ObjectMaterial)
    (s : SceneState) :
    ((defineObjectMaterials junk s).objectMaterials.filter
        (fun m => m.tag = "ceramic")).map ObjectMaterial.shininess =
      (s.objectMaterials.filter
        (fun m => m.tag = "ceramic")).map ObjectMaterial.shininess ++
        [junk.shininess] ∧
    ((defineObjectMaterials junk s).objectMaterials.filter
        (fun m => m.tag = "glass")).map ObjectMaterial.shininess =
      (s.objectMaterials.filter
        (fun m => m.tag = "glass")).map ObjectMaterial.shininess ++
        [(85 : ℝ)] := by
  constructor <;> simp [defineObjectMaterials, List.filter_append]

/-- Counterexample to C2 as stated: with a nonempty material registry,
`FindMaterial` on the absent tag "ceramic" reports `true` (not
not-found), because the method ends in `return(true)` regardless of the
scan's found flag; and `SetShaderTexture` on the unregistered tag
"ghost" does not leave the previously set shader state unchanged - it
overwrites `bUseTexture` (previously `0` from a `SetShaderColor` call)
with `1` and pushes sampler slot `-1`. -/
theorem claimC2_counterexample :
    (findMaterial
        [⟨⟨0.3, 0.3, 0.3⟩, 0.5, ⟨0.25, 0.25, 0.25⟩, ⟨0.4, 0.4, 0.4⟩, 30,
          "metal"⟩]
        "ceramic"
        ⟨⟨0, 0, 0⟩, 0, ⟨0, 0, 0⟩, ⟨0, 0, 0⟩, 7, ""⟩).1 = true ∧
    (setShaderColor 1 1 1 1 (initialSceneState true)).shader "bUseTexture" =
      some (UniformValue.intV 0) ∧
    (setShaderTexture "ghost"
        (setShaderColor 1 1 1 1 (initialSceneState true))).shader
      "bUseTexture" = some (UniformValue.intV 1) ∧
    (setShaderTexture "ghost"
        (setShaderColor 1 1 1 1 (initialSceneState true))).shader
      "objectTexture" = some (UniformValue.sampler2DV (-1)) := by
  refine ⟨?_, ?_, ?_, ?_⟩ <;>
    simp [findMaterial, findMaterialLoop, setShaderColor, setShaderTexture,
      setUniform, initialSceneState, findTextureSlot, findTextureSlotAux]

/-- C2 as amended: `FindMaterial` reports not-found only for an empty
registry; for a nonempty registry it returns `true` even when the tag
is absent, leaving the out-parameter unchanged, so a material-registry
miss makes `SetShaderMaterial` push the caller's uninitialised material
values into the `material.*` uniforms; and a texture-registry miss
makes `SetShaderTexture` set the texture-use flag to `1` and push the
sentinel sampler slot `-1` (prior shader state is not left in
place). -/
theorem claimC2_amended (materials : List ObjectMaterial) (tag : String)
    (junk : ObjectMaterial) (s : SceneState) :
    (materials = [] → findMaterial materials tag junk = (false, junk)) ∧
    (materials ≠ [] → (findMaterial materials tag junk).1 = true) ∧
    (tag ∉ materials.map ObjectMaterial.tag →
      (findMaterial materials tag junk).2 = junk) ∧
    (s.hasShader = true →
      (setShaderTexture tag s).shader "bUseTexture" =
          some (UniformValue.intV 1) ∧
        (tag ∉ s.textureIDs.map TextureEntry.tag →
          (setShaderTexture tag s).shader "objectTexture" =
            some (UniformValue.sampler2DV (-1)))) ∧
    (s.objectMaterials ≠ [] → tag ∉ s.objectMaterials.map ObjectMaterial.tag →
      (setShaderMaterial junk tag s).shader "material.shininess" =
        some (UniformValue.floatV junk.shininess)) := by
  refine ⟨?_, ?_, ?_, ?_, ?_⟩
  · intro h
    simp [findMaterial, h]
  · intro h
    simp [findMaterial, h]
  · intro h
    by_cases hm : materials = []
    · simp [findMaterial, hm]
    · simp [findMaterial, hm, findMaterialLoop_notMem materials tag junk h]
  · intro h
    constructor
    · simp [setShaderTexture, setUniform, h]
    · intro hmiss
      have hslot : findTextureSlot s.textureIDs tag = -1 := by
        rw [findTextureSlot, findTextureSlotAux_firstTagIdx,
          (firstTagIdx_none_iff _ _).mpr hmiss]
      simp [setShaderTexture, setUniform, h, hslot]
  · intro hne hmiss
    have hlen : s.objectMaterials.length > 0 := by
      cases hm : s.objectMaterials with
      | nil => exact absurd hm hne
      | cons a l => simp [hm]
    simp [setShaderMaterial, hlen, findMaterial,
      Nat.pos_iff_ne_zero.mp hlen, List.length_eq_zero.not.mpr hne,
      findMaterialLoop_notMem s.objectMaterials tag junk hmiss, setUniform]

/-- Witness for the amended C2 at concrete inputs. -/
theorem claimC2_witness :
    findMaterial [] "wood" ⟨⟨0, 0, 0⟩, 0, ⟨0, 0, 0⟩, ⟨0, 0, 0⟩, 7, ""⟩ =
      (false, ⟨⟨0, 0, 0⟩, 0, ⟨0, 0, 0⟩, ⟨0, 0, 0⟩, 7, ""⟩) ∧
    (setShaderTexture "ghost" (initialSceneState true)).shader
      "objectTexture" = some (UniformValue.sampler2DV (-1)) :=
  ⟨(claimC2_amended [] "wood" ⟨⟨0, 0, 0⟩, 0, ⟨0, 0, 0⟩, ⟨0, 0, 0⟩, 7, ""⟩
      (initialSceneState true)).1 rfl,
   ((claimC2_amended [] "ghost" ⟨⟨0, 0, 0⟩, 0, ⟨0, 0, 0⟩, ⟨0, 0, 0⟩, 7, ""⟩
      (initialSceneState true)).2.2.2.1 rfl).2 (by decide)⟩

/-- C10: for every tag and registry state, `FindTextureID` returns `-1`
exactly when `FindTextureSlot` returns `-1`, and otherwise
`FindTextureID` returns the texture ID stored in the entry at the index
that `FindTextureSlot` returns (both run the same first-match
front-to-back scan over the same cells). -/
theorem claimC10_id_slot_agree (entries : List TextureEntry) (tag : String) :
    (findTextureID entries tag = -1 ↔ findTextureSlot entries tag = -1) ∧
    (∀ i : ℕ, findTextureSlot entries tag = i →
      i < entries.length ∧
        findTextureID entries tag = ((entries.getD i ⟨0, ""⟩).ID : ℤ)) := by
  have hid := findTextureIDAux_firstTagIdx entries tag
  have hslot := findTextureSlotAux_firstTagIdx entries tag 0
  cases hf : firstTagIdx (entries.map TextureEntry.tag) tag with
  | none =>
    rw [hf] at hid hslot
    have hid2 : findTextureID entries tag = -1 := by
      unfold findTextureID
      rw [hid]
    have hslot2 : findTextureSlot entries tag = -1 := by
      unfold findTextureSlot
      rw [hslot]
    refine ⟨by rw [hid2, hslot2], ?_⟩
    intro i hi
    rw [hslot2] at hi
    omega
  | some k =>
    rw [hf] at hid hslot
    have hk : k < entries.length := by
      have := firstTagIdx_lt _ _ _ hf
      simpa using this
    have hid2 : findTextureID entries tag = ((entries.getD k ⟨0, ""⟩).ID : ℤ) := by
      unfold findTextureID
      rw [hid]
    have hslot2 : findTextureSlot entries tag = (k : ℤ) := by
      unfold findTextureSlot
      rw [hslot]
      simp
    constructor
    · rw [hid2, hslot2]
      constructor
      · intro hc
        omega
      · intro hc
        omega
    · intro i hi
      rw [hslot2] at hi
      have : i = k := by omega
      subst this
      exact ⟨hk, hid2⟩

/-- Witness for C10 at a concrete two-entry registry. -/
theorem claimC10_witness :
    1 < ([⟨7, "a"⟩, ⟨9, "b"⟩] : List TextureEntry).length ∧
    findTextureID [⟨7, "a"⟩, ⟨9, "b"⟩] "b" =
      ((([⟨7, "a"⟩, ⟨9, "b"⟩] : List TextureEntry).getD 1 ⟨0, ""⟩).ID : ℤ) :=
  (claimC10_id_slot_agree [⟨7, "a"⟩, ⟨9, "b"⟩] "b").2 1 (by decide)

/-- C3: running any load-request sequence from a fresh state registers
exactly the tags of the successful loads, in order; for every tag
registered by a successful load, `FindTextureSlot` returns the slot
index equal to that tag's 0-based registration order among successful
loads (the first match when scanned front to back), and for every tag
never registered it returns the sentinel `-1`. -/
theorem claimC3_slot_is_registration_order
    (decode : String → Option ImageData) (reqs : List (String × String))
    (tag : String) :
    ((runLoads decode reqs (initialSceneState true)).textureIDs.map
        TextureEntry.tag = successTags decode reqs) ∧
    (∀ l₁ l₂ : List String,
      successTags decode reqs = l₁ ++ tag :: l₂ → tag ∉ l₁ →
      findTextureSlot (runLoads decode reqs (initialSceneState true)).textureIDs
        tag = (l₁.length : ℤ)) ∧
    (tag ∉ successTags decode reqs →
      findTextureSlot (runLoads decode reqs (initialSceneState true)).textureIDs
        tag = -1) := by
  have htags :
      (runLoads decode reqs (initialSceneState true)).textureIDs.map
        TextureEntry.tag = successTags decode reqs := by
    rw [runLoads_map_tag]
    simp [initialSceneState]
  refine ⟨htags, ?_, ?_⟩
  · intro l₁ l₂ hsplit hnot
    unfold findTextureSlot
    rw [findTextureSlotAux_firstTagIdx, htags, hsplit,
      firstTagIdx_append l₁ l₂ tag hnot]
    simp
  · intro hnot
    unfold findTextureSlot
    rw [findTextureSlotAux_firstTagIdx, htags,
      (firstTagIdx_none_iff _ _).mpr hnot]

/-- Witness for C3: registering "a" then "b" puts "b" in slot 1, and
the never-registered "c" yields `-1` (the spec's end-to-end
scenario). -/
theorem claimC3_witness :
    findTextureSlot
      (runLoads (fun _ => some ⟨16, 16, 4⟩) [("fa.png", "a"), ("fb.png", "b")]
        (initialSceneState true)).textureIDs "b" = 1 ∧
    findTextureSlot
      (runLoads (fun _ => some ⟨16, 16, 4⟩) [("fa.png", "a"), ("fb.png", "b")]
        (initialSceneState true)).textureIDs "c" = -1 :=
  ⟨(claimC3_slot_is_registration_order (fun _ => some ⟨16, 16, 4⟩)
      [("fa.png", "a"), ("fb.png", "b")] "b").2.1 ["a"] [] (by decide)
      (by decide),
   (claimC3_slot_is_registration_order (fun _ => some ⟨16, 16, 4⟩)
      [("fa.png", "a"), ("fb.png", "b")] "c").2.2 (by decide)⟩

/-- C7: for every registered texture entry, `DestroyGLTextures` issues a
generate-new-handle operation on that entry's `ID` field (cell `i`
receives the next fresh GL name, `nextHandle + i`) rather than
releasing the previously allocated texture handle (the allocated-name
list only grows - every previously allocated name is still allocated
afterwards), and it leaves the loaded-texture count unchanged. -/
theorem claimC7_destroy_regenerates (s : SceneState) :
    loadedTextures (destroyGLTextures s) = loadedTextures s ∧
    (∀ i : ℕ, i < s.textureIDs.length →
      (destroyGLTextures s).textureIDs.getD i ⟨0, ""⟩ =
        { s.textureIDs.getD i ⟨0, ""⟩ with ID := s.nextHandle + i }) ∧
    (∀ h ∈ s.allocatedHandles, h ∈ (destroyGLTextures s).allocatedHandles) ∧
    (destroyGLTextures s).allocatedHandles =
      s.allocatedHandles ++ List.range' s.nextHandle s.textureIDs.length := by
  unfold destroyGLTextures
  rw [destroyGLTexturesAux_eq]
  refine ⟨?_, ?_, ?_, rfl⟩
  · simp [loadedTextures, regenerateEntries_length]
  · intro i hi
    exact regenerateEntries_getD s.textureIDs s.nextHandle i hi
  · intro h hmem
    simp [hmem]

/-- Witness for C7: destroying a one-entry registry rewrites the entry's
ID with the fresh name 2, keeps the count at 1 and keeps the old name 1
allocated. -/
theorem claimC7_witness :
    loadedTextures
        (destroyGLTextures
          { initialSceneState true with
            textureIDs := [⟨1, "a"⟩]
            nextHandle := 2
            allocatedHandles := [1] }) = 1 ∧
    (destroyGLTextures
          { initialSceneState true with
            textureIDs := [⟨1, "a"⟩]
            nextHandle := 2
            allocatedHandles := [1] }).textureIDs.getD 0 ⟨0, ""⟩ =
      ⟨2, "a"⟩ ∧
    1 ∈ (destroyGLTextures
          { initialSceneState true with
            textureIDs := [⟨1, "a"⟩]
            nextHandle := 2
            allocatedHandles := [1] }).allocatedHandles :=
  ⟨(claimC7_destroy_regenerates
      { initialSceneState true with
        textureIDs := [⟨1, "a"⟩]
        nextHandle := 2
        allocatedHandles := [1] }).1,
   (claimC7_destroy_regenerates
      { initialSceneState true with
        textureIDs := [⟨1, "a"⟩]
        nextHandle := 2
        allocatedHandles := [1] }).2.1 0 (by decide),
   (claimC7_destroy_regenerates
      { initialSceneState true with
        textureIDs := [⟨1, "a"⟩]
        nextHandle := 2
        allocatedHandles := [1] }).2.2.1 1 (by decide)⟩

/-- Counterexample to C6 as stated: the registry does not maintain tag
uniqueness - the fixed sequence performed by `LoadSceneTextures` itself
registers the tag "island top" twice (calls 1 and 6 load the same
granite file under the same tag), so with every decode succeeding at 3
channels the resulting tag list is not duplicate-free; and the 16-slot
cap is not enforced - seventeen successful `CreateGLTexture` calls
leave seventeen entries in the registry. -/
theorem claimC6_counterexample :
    ¬ ((loadSceneTextures (fun _ => some ⟨64, 64, 3⟩)
          (initialSceneState true)).textureIDs.map TextureEntry.tag).Nodup ∧
    loadedTextures
        (runLoads (fun _ => some ⟨64, 64, 3⟩)
          (List.replicate 17 ("f.jpg", "t")) (initialSceneState true)) =
      17 := by
  constructor
  · decide
  · decide

/-- C6 as amended: after every sequence of registration operations from
a fresh state - including the fixed sequence performed by
`LoadSceneTextures` - slot indices are assigned in load order, 0-based
and contiguous (the registry's tag list is exactly the list of
successfully loaded tags, in order, the entry of the k-th success
sitting at slot k); but tags are not unique keys (`LoadSceneTextures`
registers "island top" twice) and no bound of 16 concurrently loaded
textures is enforced. -/
theorem claimC6_amended (decode : String → Option ImageData)
    (reqs : List (String × String)) :
    (runLoads decode reqs (initialSceneState true)).textureIDs.map
        TextureEntry.tag = successTags decode reqs ∧
    loadedTextures (runLoads decode reqs (initialSceneState true)) =
      (successTags decode reqs).length ∧
    (loadSceneTextures decode (initialSceneState true)).textureIDs.map
        TextureEntry.tag = successTags decode sceneTextureRequests := by
  have htags :
      (runLoads decode reqs (initialSceneState true)).textureIDs.map
        TextureEntry.tag = successTags decode reqs := by
    rw [runLoads_map_tag]
    simp [initialSceneState]
  refine ⟨htags, ?_, ?_⟩
  · rw [loadedTextures, ← List.length_map _ TextureEntry.tag, htags]
  · rw [loadSceneTextures]
    show ((runLoads decode sceneTextureRequests
        (initialSceneState true)).textureIDs.map TextureEntry.tag) = _
    rw [runLoads_map_tag]
    simp [initialSceneState]

/-- C1 as amended: for every scale vector, per-axis rotation angles in
degrees, and translation vector, `SetTransformations` pushes to the
shader sink, under the fixed uniform name "model", the 4x4 matrix equal
to the product `Translation * RotationX * RotationY * RotationZ * Scale`
with angles converted from degrees to radians - so that, applied to a
point, scale acts first, then rotation about Z, then about Y, then
about X, then translation - and returns nothing to the caller (the C++
method is `void`; the model's whole result is the updated state). -/
theorem claimC1_model_matrix (scaleXYZ : Vec3)
    (xDeg yDeg zDeg : ℝ) (positionXYZ : Vec3) (s : SceneState)
    (h : s.hasShader = true) :
    (setTransformations scaleXYZ xDeg yDeg zDeg positionXYZ s).shader
        "model" =
      some (UniformValue.mat4V
        (glmTranslate positionXYZ * glmRotate (radians xDeg) ⟨1, 0, 0⟩ *
          glmRotate (radians yDeg) ⟨0, 1, 0⟩ *
          glmRotate (radians zDeg) ⟨0, 0, 1⟩ * glmScale scaleXYZ)) ∧
    (∀ p : Vec4,
      (glmTranslate positionXYZ * glmRotate (radians xDeg) ⟨1, 0, 0⟩ *
          glmRotate (radians yDeg) ⟨0, 1, 0⟩ *
          glmRotate (radians zDeg) ⟨0, 0, 1⟩ * glmScale scaleXYZ).mulVec p =
        (glmTranslate positionXYZ).mulVec
          ((glmRotate (radians xDeg) ⟨1, 0, 0⟩).mulVec
            ((glmRotate (radians yDeg) ⟨0, 1, 0⟩).mulVec
              ((glmRotate (radians zDeg) ⟨0, 0, 1⟩).mulVec
                ((glmScale scaleXYZ).mulVec p))))) := by
  constructor
  · simp [setTransformations, setUniform, h]
  · intro p
    rw [Mat4.mul_mulVec, Mat4.mul_mulVec, Mat4.mul_mulVec, Mat4.mul_mulVec]

/-- Witness for the amended C1 at a concrete call. -/
theorem claimC1_witness :
    (setTransformations ⟨2, 1, 1⟩ 0 0 90 ⟨1, 0, 0⟩
        (initialSceneState true)).shader "model" =
      some (UniformValue.mat4V
        (glmTranslate ⟨1, 0, 0⟩ * glmRotate (radians 0) ⟨1, 0, 0⟩ *
          glmRotate (radians 0) ⟨0, 1, 0⟩ * glmRotate (radians 90) ⟨0, 0, 1⟩ *
          glmScale ⟨2, 1, 1⟩)) :=
  (claimC1_model_matrix ⟨2, 1, 1⟩ 0 0 90 ⟨1, 0, 0⟩ (initialSceneState true)
    rfl).1

/-- Counterexample to C1 as stated: at scale (1,1,1), rotation
(90°, 90°, 0°) and translation (0,0,0), the matrix that
`SetTransformations` pushes under "model" (namely
`T * Rx * Ry * Rz * S`, which applies Z first, then Y, then X to a
point) is not the matrix that applies scale first, then rotation about
X, then about Y, then about Z, then translation (which would be
`T * Rz * Ry * Rx * S`): the two differ, e.g. in entry row 0, column 1
(`0` versus `1`). -/
theorem claimC1_counterexample :
    (setTransformations ⟨1, 1, 1⟩ 90 90 0 ⟨0, 0, 0⟩
        (initialSceneState true)).shader "model" ≠
      some (UniformValue.mat4V
        (claimedModelMatrix ⟨1, 1, 1⟩ 90 90 0 ⟨0, 0, 0⟩)) := by
  intro hEq
  have h1 : (setTransformations ⟨1, 1, 1⟩ 90 90 0 ⟨0, 0, 0⟩
      (initialSceneState true)).shader "model" =
      some (UniformValue.mat4V
        (glmTranslate ⟨0, 0, 0⟩ * glmRotate (radians 90) ⟨1, 0, 0⟩ *
          glmRotate (radians 90) ⟨0, 1, 0⟩ * glmRotate (radians 0) ⟨0, 0, 1⟩ *
          glmScale ⟨1, 1, 1⟩)) := by
    simp [setTransformations, setUniform, initialSceneState]
  rw [h1] at hEq
  unfold claimedModelMatrix at hEq
  simp only [Option.some.injEq, UniformValue.mat4V.injEq] at hEq
  have hcode : glmTranslate ⟨0, 0, 0⟩ * glmRotate (radians 90) ⟨1, 0, 0⟩ *
      glmRotate (radians 90) ⟨0, 1, 0⟩ * glmRotate (radians 0) ⟨0, 0, 1⟩ *
      glmScale ⟨1, 1, 1⟩ =
      (⟨0, 0, 1, 0, 1, 0, 0, 0, 0, 1, 0, 0, 0, 0, 0, 1⟩ : Mat4) := by
    rw [radians_90, radians_zero, glmRotate_unitX, glmRotate_unitY,
      glmRotate_unitZ]
    simp only [Real.cos_pi_div_two, Real.sin_pi_div_two, Real.cos_zero,
      Real.sin_zero, glmTranslate, glmScale, Mat4.mul_def, Mat4.mul,
      Mat4.mk.injEq]
    norm_num
  have hclaim : glmTranslate ⟨0, 0, 0⟩ * glmRotate (radians 0) ⟨0, 0, 1⟩ *
      glmRotate (radians 90) ⟨0, 1, 0⟩ * glmRotate (radians 90) ⟨1, 0, 0⟩ *
      glmScale ⟨1, 1, 1⟩ =
      (⟨0, 1, 0, 0, 0, 0, -1, 0, -1, 0, 0, 0, 0, 0, 0, 1⟩ : Mat4) := by
    rw [radians_90, radians_zero, glmRotate_unitX, glmRotate_unitY,
      glmRotate_unitZ]
    simp only [Real.cos_pi_div_two, Real.sin_pi_div_two, Real.cos_zero,
      Real.sin_zero, glmTranslate, glmScale, Mat4.mul_def, Mat4.mul,
      Mat4.mk.injEq]
    norm_num
  rw [hcode, hclaim] at hEq
  simp only [Mat4.mk.injEq] at hEq
  norm_num at hEq
